import Mathlib

/-!
Shallow embedding of `src/notlogin.c` from the miniserver repository.

The program's `main` is:

```
int main(int argc, char** argv) {
  printf(
    "Miniserver does not provide a login prompt. It has no shell anyway.\n"
    "If you need to execute a command, do so via ssh.\n"
  );
  sigset_t sigmask;
  sigemptyset(&sigmask);
  while (1) sigsuspend(&sigmask);
}
```

We embed it as a deterministic small-step machine. A control state records
where in `main` execution stands; each step performs the next library call
(`printf`, `sigemptyset`, `sigsuspend`) and receives that call's return
value from an environment `env : Nat → Int`, which the code ignores
everywhere. `argc` and `argv` are parameters of the run function that the
body never mentions, exactly as in the C source; `argv = none` models a
null argument vector. Observable effects are recorded with `action`.
-/

namespace Notlogin

/-- A signal set (`sigset_t`), as the list of blocked signal numbers. -/
abbrev SigSet := List Nat

/-- `sigemptyset`: the empty blocked-signal set. -/
def sigemptyset : SigSet := []

/-- The argument to `printf` in `main`: two adjacent C string literals,
concatenated by the compiler. -/
def notice : String :=
  "Miniserver does not provide a login prompt. It has no shell anyway.\n" ++
  "If you need to execute a command, do so via ssh.\n"

/-- Observable effects a step of the program could have. The constructors
beyond `write` and `suspend` exist so that frame claims (no file, network
or heap-allocation effect) are statable; `main` never produces them. -/
inductive Action where
  | write (s : String)
  | suspend (mask : SigSet)
  | openFile (path : String)
  | netOp
  | alloc (bytes : Nat)
  deriving DecidableEq

/-- Control states of `main`:
`start` = about to call `printf`;
`initMask` = about to call `sigemptyset(&sigmask)`;
`loop m` = inside `while (1)`, about to call `sigsuspend(&sigmask)` with
`sigmask = m`;
`ret c` = `main` returned `c` (no path in the code reaches this). -/
inductive CState where
  | start
  | initMask
  | loop (sigmask : SigSet)
  | ret (code : Int)
  deriving DecidableEq

/-- The observable effect of the library call performed at a state.
`sigemptyset` only mutates the local `sigmask`, so it is not observable. -/
def action : CState → Option Action
  | .start => some (.write notice)
  | .initMask => none
  | .loop m => some (.suspend m)
  | .ret _ => none

/-- One step of `main`: perform the call at the current state and receive
its return value `r`. The code never inspects `r`, so no branch of `step`
uses it: `printf`'s result is discarded, and after `sigsuspend` returns
the loop re-enters with the same mask. -/
def step : CState → Int → CState
  | .start, _ => .initMask
  | .initMask, _ => .loop sigemptyset
  | .loop m, _ => .loop m
  | .ret c, _ => .ret c

/-- The state of `main` after `n` completed calls, for an invocation with
arguments `argc`, `argv` (with `none` a null `argv`) and an environment
`env` assigning each call its return value. The body of `main` mentions
neither `argc` nor `argv`, so neither appears on a right-hand side. -/
def run (argc : Int) (argv : Option (List (Option String))) (env : Nat → Int) :
    Nat → CState
  | 0 => .start
  | n + 1 => step (run argc argv env n) (env n)

/-- The observable action performed at step `n`. -/
def actionAt (argc : Int) (argv : Option (List (Option String)))
    (env : Nat → Int) (n : Nat) : Option Action :=
  action (run argc argv env n)

/-- How many writes to standard output occur among the first `n` steps. -/
def writeCount (argc : Int) (argv : Option (List (Option String)))
    (env : Nat → Int) (n : Nat) : Nat :=
  (List.range n).countP fun k =>
    match actionAt argc argv env k with
    | some (Action.write _) => true
    | _ => false

/-- A concrete environment, used to instantiate universally quantified
statements at a closed input. -/
def envZero : Nat → Int := fun _ => 0

/-- A concrete non-null argument vector. -/
def argvHelp : Option (List (Option String)) := some [some "--help"]

/- ### Helper lemmas about `run` -/

theorem step_int_irrel (s : CState) (r r' : Int) : step s r = step s r' := by
  cases s <;> rfl

theorem run_irrel (a a' : Int) (v v' : Option (List (Option String)))
    (e e' : Nat → Int) : ∀ n, run a v e n = run a' v' e' n := by
  intro n
  induction n with
  | zero => rfl
  | succ k ih =>
      show step (run a v e k) (e k) = step (run a' v' e' k) (e' k)
      rw [ih, step_int_irrel]

theorem run_ge_two (a : Int) (v : Option (List (Option String)))
    (e : Nat → Int) : ∀ n, run a v e (n + 2) = CState.loop sigemptyset := by
  intro n
  induction n with
  | zero => rfl
  | succ k ih =>
      show step (run a v e (k + 2)) (e (k + 2)) = CState.loop sigemptyset
      rw [ih]
      rfl

theorem run_eq (a : Int) (v : Option (List (Option String))) (e : Nat → Int) :
    ∀ n, run a v e n =
      if n = 0 then CState.start
      else if n = 1 then CState.initMask
      else CState.loop sigemptyset := by
  intro n
  match n with
  | 0 => rfl
  | 1 => rfl
  | (k + 2) =>
      rw [run_ge_two]
      simp

theorem actionAt_eq (a : Int) (v : Option (List (Option String)))
    (e : Nat → Int) (n : Nat) :
    actionAt a v e n =
      if n = 0 then some (Action.write notice)
      else if n = 1 then none
      else some (Action.suspend sigemptyset) := by
  unfold actionAt
  rw [run_eq]
  split_ifs <;> rfl

/- ### Claim theorems -/

/-- Claim C1: on every invocation of `main`, whatever `argc`, `argv` and the
environment are, the first action performed is the write of the fixed notice
string to standard output, and that string is the same for all invocations. -/
theorem c1_first_action_is_fixed_write (argc : Int)
    (argv : Option (List (Option String))) (env : Nat → Int) :
    actionAt argc argv env 0 = some (Action.write notice) := rfl

/-- Claim C2: two invocations of `main` that differ only in their
command-line arguments pass through the same states and perform the same
actions at every step: arguments never cause failure or change behaviour. -/
theorem c2_arguments_ignored (argc argc' : Int)
    (argv argv' : Option (List (Option String))) (env : Nat → Int) (n : Nat) :
    run argc argv env n = run argc' argv' env n ∧
    actionAt argc argv env n = actionAt argc' argv' env n := by
  refine ⟨run_irrel argc argc' argv argv' env env n, ?_⟩
  unfold actionAt
  rw [run_irrel argc argc' argv argv' env env n]

/-- Claim C3: whenever a `sigsuspend` action occurs at some step `n`, the
notice has already been written at step `0`, which is strictly earlier:
no suspension precedes the write. -/
theorem c3_write_before_suspend (argc : Int)
    (argv : Option (List (Option String))) (env : Nat → Int) (n : Nat)
    (m : SigSet) (h : actionAt argc argv env n = some (Action.suspend m)) :
    actionAt argc argv env 0 = some (Action.write notice) ∧ 0 < n := by
  refine ⟨rfl, ?_⟩
  rcases n with _ | k
  · rw [actionAt_eq] at h
    simp at h
  · exact Nat.succ_pos k

/-- Witness for C3 at the concrete input `argc = 0`, null `argv`,
environment `envZero`, step `2`. -/
theorem c3_write_before_suspend_witness :
    actionAt 0 none envZero 0 = some (Action.write notice) ∧ 0 < 2 :=
  c3_write_before_suspend 0 none envZero 2 sigemptyset (by decide)

/-- Claim C4: at every step of the suspension loop (every `n ≥ 2`) the
action is a suspension on the empty blocked-signal set, and after the
suspend call returns the very next action is again a suspension with the
same empty mask. -/
theorem c4_loop_suspends_empty_mask (argc : Int)
    (argv : Option (List (Option String))) (env : Nat → Int) (n : Nat)
    (h : 2 ≤ n) :
    actionAt argc argv env n = some (Action.suspend sigemptyset) ∧
    actionAt argc argv env (n + 1) = some (Action.suspend sigemptyset) := by
  rw [actionAt_eq, actionAt_eq]
  constructor
  · have h0 : n ≠ 0 := by omega
    have h1 : n ≠ 1 := by omega
    simp [h0, h1]
  · have h0 : n + 1 ≠ 0 := by omega
    have h1 : n + 1 ≠ 1 := by omega
    simp [h0, h1]

/-- Witness for C4 at the concrete input `argc = 0`, null `argv`,
environment `envZero`, step `2`. -/
theorem c4_loop_suspends_empty_mask_witness :
    actionAt 0 none envZero 2 = some (Action.suspend sigemptyset) ∧
    actionAt 0 none envZero 3 = some (Action.suspend sigemptyset) :=
  c4_loop_suspends_empty_mask 0 none envZero 2 (by decide)

/-- Claim C5: `main` has no exit path: modelling every `sigsuspend` call as
returning, no reachable state is a return from `main`, and after any number
of steps the state two steps later is again the suspension loop, so another
iteration always follows. -/
theorem c5_no_exit_path (argc : Int) (argv : Option (List (Option String)))
    (env : Nat → Int) (n : Nat) (code : Int) :
    run argc argv env n ≠ CState.ret code ∧
    run argc argv env (n + 2) = CState.loop sigemptyset := by
  refine ⟨?_, run_ge_two argc argv env n⟩
  rw [run_eq]
  split_ifs <;> intro hc <;> cases hc

/-- Claim C6: the result of the write is never inspected: from the initial
state the step taken is the same for every possible `printf` return value,
it proceeds to the mask initialisation (then the suspension loop) with no
error branch, and more generally the whole run is identical under any two
environments of library-call results. -/
theorem c6_write_result_ignored (argc : Int)
    (argv : Option (List (Option String))) (env env' : Nat → Int)
    (r r' : Int) (n : Nat) :
    step CState.start r = step CState.start r' ∧
    step CState.start r = CState.initMask ∧
    run argc argv env n = run argc argv env' n :=
  ⟨rfl, rfl, run_irrel argc argc argv argv env env' n⟩

/-- Claim C7: over any execution prefix that has started (`n ≥ 1`) exactly
one write to standard output has been performed, and every action the
program ever performs is either that notice write or an empty-mask
suspension: no file open, network operation or heap allocation occurs. -/
theorem c7_single_write_no_other_effects (argc : Int)
    (argv : Option (List (Option String))) (env : Nat → Int) (n k : Nat)
    (a : Action) (h : 1 ≤ n) (hk : actionAt argc argv env k = some a) :
    writeCount argc argv env n = 1 ∧
    (a = Action.write notice ∨ a = Action.suspend sigemptyset) := by
  constructor
  · induction n with
    | zero => omega
    | succ j ih =>
        rcases Nat.eq_zero_or_pos j with hj | hj
        · subst hj; rfl
        · have hrec : writeCount argc argv env (j + 1) =
              writeCount argc argv env j := by
            unfold writeCount
            rw [List.range_succ, List.countP_append]
            have hfalse :
                (match actionAt argc argv env j with
                 | some (Action.write _) => true
                 | _ => false) = false := by
              rw [actionAt_eq]
              have h0 : j ≠ 0 := by omega
              rcases eq_or_ne j 1 with h1 | h1 <;> simp [h0, h1]
            simp [hfalse]
          rw [hrec]
          exact ih hj
  · rw [actionAt_eq] at hk
    rcases eq_or_ne k 0 with h0 | h0
    · left
      simp [h0] at hk
      exact hk.symm
    · right
      rcases eq_or_ne k 1 with h1 | h1
      · simp [h0, h1] at hk
      · simp [h0, h1] at hk
        exact hk.symm

/-- Witness for C7 at the concrete input `argc = 3`, `argv = argvHelp`,
environment `envZero`, prefix length `1`, action index `2`. -/
theorem c7_single_write_no_other_effects_witness :
    writeCount 3 argvHelp envZero 1 = 1 ∧
    (Action.suspend sigemptyset = Action.write notice ∨
     Action.suspend sigemptyset = Action.suspend sigemptyset) :=
  c7_single_write_no_other_effects 3 argvHelp envZero 1 2
    (Action.suspend sigemptyset) (by decide) (by decide)

/-- Claim C8: the notice is exactly the two-line string
"Miniserver does not provide a login prompt. It has no shell anyway.\n" ++
"If you need to execute a command, do so via ssh.\n": each of the two lines
is terminated by a newline and contains no other newline. -/
theorem c8_notice_exact_text :
    notice =
      "Miniserver does not provide a login prompt. It has no shell anyway." ++
      "\n" ++ "If you need to execute a command, do so via ssh." ++ "\n" ∧
    notice.data.count '\n' = 2 ∧
    ("Miniserver does not provide a login prompt. It has no shell anyway.").data.count '\n'
      = 0 ∧
    ("If you need to execute a command, do so via ssh.").data.count '\n' = 0 :=
  ⟨by decide, by decide, by decide, by decide⟩

/-- Claim C9: the signal mask passed to `sigsuspend` is the empty set on
every loop iteration: any reachable loop state carries `sigemptyset`, a
step from a loop state leaves the mask unchanged, and the successor state
is again the loop on the empty mask. -/
theorem c9_sigmask_empty_invariant (argc : Int)
    (argv : Option (List (Option String))) (env : Nat → Int) (n : Nat)
    (m : SigSet) (r : Int) (h : run argc argv env n = CState.loop m) :
    m = sigemptyset ∧ step (CState.loop m) r = CState.loop m ∧
    run argc argv env (n + 1) = CState.loop sigemptyset := by
  rw [run_eq] at h
  split_ifs at h with h0 h1
  all_goals cases h
  refine ⟨rfl, rfl, ?_⟩
  rw [run_eq]
  have ha : n + 1 ≠ 0 := by omega
  have hb : n + 1 ≠ 1 := by omega
  simp [ha, hb]

/-- Witness for C9 at the concrete input `argc = 0`, null `argv`,
environment `envZero`, step `2`, mask `sigemptyset`, return value `0`. -/
theorem c9_sigmask_empty_invariant_witness :
    sigemptyset = sigemptyset ∧
    step (CState.loop sigemptyset) 0 = CState.loop sigemptyset ∧
    run 0 none envZero 3 = CState.loop sigemptyset :=
  c9_sigmask_empty_invariant 0 none envZero 2 sigemptyset 0 (by decide)

/-- Claim C10: `main` never reads `argc` nor accesses memory through
`argv`: for every `argc` (including 0) and every `argv` (including the
null pointer, modelled by `none`), the run and its actions coincide with
those of the invocation with `argc = 0` and null `argv`, so no
out-of-bounds or null access through the argument vector can arise. -/
theorem c10_argv_never_accessed (argc : Int)
    (argv : Option (List (Option String))) (env : Nat → Int) (n : Nat) :
    run argc argv env n = run 0 none env n ∧
    actionAt argc argv env n = actionAt 0 none env n := by
  refine ⟨run_irrel argc 0 argv none env env n, ?_⟩
  unfold actionAt
  rw [run_irrel argc 0 argv none env env n]

end Notlogin
